import Mathlib

/-!
Verification of the stripe-cli repository's card-import and configuration
logic against its natural-language specification.

JavaScript strings that undergo character-level processing (card numbers,
expiration dates, masking) are embedded as `List Char`; identifier-like
strings (API keys, platform names, statuses, error messages) are embedded
as `String`.  JavaScript `undefined`/`null` string values are embedded as
`Option String` (`none`), and JavaScript truthiness of a string value
(`undefined`, `null` and `''` are falsy) as `jsTruthy` below.
-/

set_option maxRecDepth 4000

/-- JS truthiness of a possibly-absent string: `undefined`, `null` and the
empty string are falsy, every other string is truthy. -/
def jsTruthy (o : Option String) : Bool :=
  match o with
  | none => false
  | some s => s != ""

/-- JS `a || b` on possibly-absent strings: yields `a` when truthy, else `b`. -/
def jsOr (a b : Option String) : Option String :=
  if jsTruthy a then a else b

/-- JS `String.prototype.startsWith`, via the underlying character list
(structurally computable). -/
def jsStartsWith (s pre : String) : Bool :=
  pre.data.isPrefixOf s.data

/-- JS `String.prototype.endsWith`, via the underlying character list. -/
def jsEndsWith (s suf : String) : Bool :=
  suf.data.isSuffixOf s.data

/-- JS `String.prototype.toLowerCase` (ASCII, as used on platform names). -/
def jsToLower (s : String) : String :=
  ⟨s.data.map Char.toLower⟩

/-- Remove the last `n` characters (JS `slice(0, -n)` as used in
`replace` of a trailing suffix). -/
def jsDropRight (s : String) (n : Nat) : String :=
  ⟨s.data.take (s.data.length - n)⟩

/-- A character in `0`..`9`, as matched by the regex class `\d`. -/
def isDigitChar (c : Char) : Bool :=
  '0' ≤ c && c ≤ '9'

/-- Numeric value of a digit character (JS `parseInt` on a single digit). -/
def digitVal (c : Char) : Nat :=
  c.toNat - '0'.toNat

/-- JS `parseInt(s)` restricted to the inputs reachable in this code base:
the longest leading run of decimal digits is parsed; `none` stands for `NaN`
(no leading digit).  Leading whitespace and sign handling are not modelled:
no caller passes strings with them. -/
def parseIntJS (l : List Char) : Option Nat :=
  let ds := l.takeWhile isDigitChar
  if ds.isEmpty then none
  else some (ds.foldl (fun a c => 10 * a + digitVal c) 0)

/-- JS `String.prototype.split(sep)` for a single-character separator
(`''.split('/') = ['']`, separators at the ends produce empty fields). -/
def splitOnChar (sep : Char) : List Char → List (List Char)
  | [] => [[]]
  | c :: rest =>
    let r := splitOnChar sep rest
    if c = sep then [] :: r
    else
      match r with
      | [] => [[c]]
      | h :: t => (c :: h) :: t

/-! ## `validateCardNumber` (src/unnamed/part_001 lines 81-104) -/

/-- One step of the Luhn doubling rule from the source:
`digit *= 2; if (digit > 9) digit -= 9`. -/
def luhnDouble (d : Nat) : Nat :=
  if 2 * d > 9 then 2 * d - 9 else 2 * d

/-- The source's summing loop, walking the digits from the last to the
first (hence applied to the reversed digit list) with the alternation flag
`isEven`, which starts `false` and flips at each step. -/
def luhnLoop : List Char → Bool → Nat
  | [], _ => 0
  | c :: rest, isEven =>
    (if isEven then luhnDouble (digitVal c) else digitVal c) + luhnLoop rest (!isEven)

/-- Embedding of `validateCardNumber(cardNumber)`: the regex test `/^\d{13,19}$/`
followed by the Luhn checksum loop, accepting when the sum is divisible
by 10. -/
def validateCardNumber (l : List Char) : Bool :=
  if !(13 ≤ l.length && l.length ≤ 19 && l.all isDigitChar) then false
  else luhnLoop l.reverse false % 10 == 0

/-- Specification-side Luhn checksum: position-indexed sum over the digits
taken from the right (position 0 is the last digit); digits at odd
positions are doubled, with 9 subtracted when the doubled digit
exceeds 9. -/
def luhnChecksumFrom : List Char → Nat → Nat
  | [], _ => 0
  | c :: rest, i =>
    (if i % 2 = 1 then luhnDouble (digitVal c) else digitVal c) + luhnChecksumFrom rest (i + 1)

/-- Specification-side Luhn checksum of a digit string. -/
def luhnChecksum (l : List Char) : Nat :=
  luhnChecksumFrom l.reverse 0

/-! ## `validateExpirationDate` (src/unnamed/part_001 lines 111-141) -/

/-- The moment the validation runs at, reduced to the data the function
actually reads from `new Date()`: the calendar year (`getFullYear`) and the
0-based month (`getMonth`).  `new Date(fullYear, month - 1)` denotes the
first instant of that month, and `now` is an instant lying inside its own
month, so the strict JS date comparison `expDateObj > now` coincides with
the strict lexicographic comparison of (year, 0-based month) pairs. -/
structure NowTime where
  year : Nat
  month0 : Nat

/-- Embedding of `validateExpirationDate(expDate)`.  `MM/YY` inputs are split on `/`
(exactly two parts required), `MMYY` inputs must have length 4; the month
must be in 1..12 and the first instant of the expiration month (in the
current century) must be strictly in the future.  A `NaN` month passes the
range check (both `NaN` comparisons are false) but then yields an invalid
`Date`, for which the comparison is false; a `NaN` year likewise yields an
invalid `Date`.  Both paths return `false` and are collapsed here. -/
def validateExpirationDate (now : NowTime) (expDate : List Char) : Bool :=
  if expDate.isEmpty then false
  else
    let parsed : Option (Option Nat × Option Nat) :=
      if expDate.contains '/' then
        match splitOnChar '/' expDate with
        | [a, b] => some (parseIntJS a, parseIntJS b)
        | _ => none
      else if expDate.length = 4 then
        some (parseIntJS (expDate.take 2), parseIntJS (expDate.drop 2))
      else none
    match parsed with
    | none => false
    | some (none, _) => false
    | some (some _, none) => false
    | some (some month, some year) =>
      if month < 1 || month > 12 then false
      else
        let currentCentury := now.year / 100 * 100
        let fullYear := currentCentury + year
        decide (now.year < fullYear ∨ (fullYear = now.year ∧ now.month0 < month - 1))

/-- Specification-side shape predicate: the input is `MM/YY` (two digits,
a slash, two digits) or `MMYY` (four digits). -/
def isMMYYForm (l : List Char) : Bool :=
  match l with
  | [a, b, sl, c, d] => sl == '/' && isDigitChar a && isDigitChar b && isDigitChar c && isDigitChar d
  | [a, b, c, d] => isDigitChar a && isDigitChar b && isDigitChar c && isDigitChar d
  | _ => false

/-- The month field of an `MM/YY` or `MMYY` string. -/
def expMonth (l : List Char) : Nat :=
  (l.take 2).foldl (fun a c => 10 * a + digitVal c) 0

/-- The two-digit year field of an `MM/YY` or `MMYY` string. -/
def expYear2 (l : List Char) : Nat :=
  (if l.contains '/' then l.drop 3 else l.drop 2).foldl (fun a c => 10 * a + digitVal c) 0

/-! ## `maskCardNumber` (src/unnamed/part_001 lines 195-202) -/

/-- Embedding of `maskCardNumber(cardNumber)`: inputs of length below 4 (including the
empty string, which is falsy) are returned unchanged; otherwise all but the
last 4 characters are replaced by `*`. -/
def maskCardNumber (l : List Char) : List Char :=
  if l.length < 4 then l
  else List.replicate (l.length - 4) '*' ++ l.drop (l.length - 4)

/-! ## Errors

JavaScript `Error` objects are embedded as a `type` tag (the `error.type`
field set by the wrapped Stripe library; plain `new Error(...)` objects
have no `type`, embedded as `generic`) together with the `message`
string. -/

inductive JsErrorType where
  | stripeAuth
  | stripePermission
  | stripeAPI
  | generic
deriving DecidableEq

structure JsError where
  type : JsErrorType
  message : String
deriving DecidableEq

/-- JS `message.includes(sub)`, via `splitOn`: the substring occurs iff
splitting on it produces more than one piece. -/
def includesSub (msg sub : String) : Bool :=
  (msg.splitOn sub).length != 1

/-! ## `validateCardRow` (src/unnamed/part_001 lines 149-188)

CSV row fields are strings; a missing column is `undefined`, which every
check in the source treats exactly like `''` (both falsy, and the length
checks are only reached on truthy values), so fields are embedded as plain
strings with `""` for absent.  Character-level fields keep the `List Char`
embedding. -/

structure CardRow where
  card : List Char := []
  exp : List Char := []
  first : String := ""
  last : String := ""
  zip : String := ""
  token : String := ""
deriving DecidableEq

structure ValidationResult where
  isValid : Bool
  errors : List String
  rowNumber : Nat
deriving DecidableEq

def validateCardRow (now : NowTime) (row : CardRow) (rowNumber : Nat) : ValidationResult :=
  let errors : List String :=
    (if row.card.isEmpty then ["Card number is required"]
     else if !validateCardNumber row.card then ["Invalid card number format or Luhn check failed"]
     else [])
    ++ (if row.exp.isEmpty then ["Expiration date is required"]
        else if !validateExpirationDate now row.exp then ["Invalid expiration date format or date is in the past"]
        else [])
    ++ (if row.first != "" && (row.first.length < 1 || row.first.length > 50) then ["First name must be 1-50 characters"] else [])
    ++ (if row.last != "" && (row.last.length < 1 || row.last.length > 50) then ["Last name must be 1-50 characters"] else [])
    ++ (if row.zip != "" && (row.zip.length < 3 || row.zip.length > 10) then ["ZIP code must be 3-10 characters"] else [])
    ++ (if row.token != "" && (row.token.length < 1 || row.token.length > 100) then ["Token must be 1-100 characters"] else [])
  { isValid := errors.isEmpty, errors := errors, rowNumber := rowNumber }

/-- A row passes validation.  `isValid` does not depend on the row number
(only the `rowNumber` field does), so the count of valid rows can be taken
with row number 0. -/
def rowValid (now : NowTime) (row : CardRow) : Bool :=
  (validateCardRow now row 0).isValid

/-- Number of rows passing `validateCardRow` (`validCards` in the source's
first loop). -/
def countValid (now : NowTime) (rows : List CardRow) : Nat :=
  rows.countP (rowValid now)

/-! ## `importCards` (src/unnamed/part_001 lines 339-690)

The model starts after the IO prelude (key resolution, client creation,
account resolution from profiles, CSV reading): its inputs are the parsed
rows, the resolved platform / connected account, the dry-run flag, and the
payment API as a function from a row to the result of
`createStripeCustomerAndSaveCard` (lines 221-313), which issues the
customer, payment-method and setup-intent creations for that row.  The
default source format is modelled (no CardPointe normalization), so the
preserved `originalRows[i]` equals `rows[i]`.  Alongside the outcome the
model returns the list of rows for which the payment API was invoked. -/

structure ApiSuccess where
  customerId : String := ""
  paymentMethodId : String := ""
  setupIntentId : String := ""
  setupIntentPaymentMethod : String := ""
  cardBrand : String := ""
  cardLast4 : String := ""
  cardExpMonth : String := ""
  cardExpYear : String := ""
deriving DecidableEq

/-- One output row: the original CSV row plus the appended `stripe_*`
columns. -/
structure ImportResultRow where
  original : CardRow
  stripe_platform_account : String
  stripe_connected_account : String
  stripe_payment_method_id : String
  stripe_customer_id : String
  stripe_setup_intent_id : String
  stripe_setup_intent_payment_method_id : String
  stripe_card_brand : String
  stripe_card_last4 : String
  stripe_card_exp_month : String
  stripe_card_exp_year : String
  stripe_status : String
  stripe_error : String
deriving DecidableEq

def invalidResultRow (row : CardRow) (v : ValidationResult) : ImportResultRow :=
  { original := row
    stripe_platform_account := ""
    stripe_connected_account := ""
    stripe_payment_method_id := ""
    stripe_customer_id := ""
    stripe_setup_intent_id := ""
    stripe_setup_intent_payment_method_id := ""
    stripe_card_brand := ""
    stripe_card_last4 := ""
    stripe_card_exp_month := ""
    stripe_card_exp_year := ""
    stripe_status := "invalid"
    stripe_error := String.intercalate "; " v.errors }

def successResultRow (platformAccount connectedAccount : String) (row : CardRow) (res : ApiSuccess) : ImportResultRow :=
  { original := row
    stripe_platform_account := platformAccount
    stripe_connected_account := connectedAccount
    stripe_payment_method_id := res.paymentMethodId
    stripe_customer_id := res.customerId
    stripe_setup_intent_id := res.setupIntentId
    stripe_setup_intent_payment_method_id := res.setupIntentPaymentMethod
    stripe_card_brand := res.cardBrand
    stripe_card_last4 := res.cardLast4
    stripe_card_exp_month := res.cardExpMonth
    stripe_card_exp_year := res.cardExpYear
    stripe_status := "success"
    stripe_error := "" }

def failedResultRow (platformAccount connectedAccount : String) (row : CardRow) (e : JsError) : ImportResultRow :=
  { original := row
    stripe_platform_account := platformAccount
    stripe_connected_account := connectedAccount
    stripe_payment_method_id := ""
    stripe_customer_id := ""
    stripe_setup_intent_id := ""
    stripe_setup_intent_payment_method_id := ""
    stripe_card_brand := ""
    stripe_card_last4 := ""
    stripe_card_exp_month := ""
    stripe_card_exp_year := ""
    stripe_status := "failed"
    stripe_error := e.message }

/-- One entry of the `errors` array filled by the validation loop
(lines 456-469): the 1-indexed CSV row number (`i + 2`, accounting for the
header line), the masked card number (`'N/A'` when masking yields a falsy
string), and the per-row error messages. -/
structure ValidationErrorEntry where
  row : Nat
  card : List Char
  errors : List String
deriving DecidableEq

def maskOrNA (card : List Char) : List Char :=
  let m := maskCardNumber card
  if m.isEmpty then "N/A".data else m

/-- The validation loop's `errors` array, starting at row index `i`. -/
def validationErrors (now : NowTime) : List CardRow → Nat → List ValidationErrorEntry
  | [], _ => []
  | r :: rest, i =>
    let v := validateCardRow now r (i + 2)
    if v.isValid then validationErrors now rest (i + 1)
    else { row := i + 2, card := maskOrNA r.card, errors := v.errors } :: validationErrors now rest (i + 1)

inductive ImportOutcome where
  | dryRunSummary (validCards : Nat) (invalidCount : Nat)
  | completed (results : List ImportResultRow) (successCount : Nat) (failCount : Nat)
deriving DecidableEq

/-- The import loop (lines 539-624): each row is re-validated; invalid rows
are recorded with status `invalid` without calling the API; valid rows are
sent to the API, a per-row `try`/`catch` turning an API error into a
`failed` row without stopping the loop.  Returns
(results, successCount, failCount, API calls made, in order). -/
def importLoop (now : NowTime) (platformAccount connectedAccount : String)
    (api : CardRow → Except JsError ApiSuccess) :
    List CardRow → (List ImportResultRow × Nat × Nat × List CardRow)
  | [] => ([], 0, 0, [])
  | r :: rest =>
    let v := validateCardRow now r 0
    let rec_ := importLoop now platformAccount connectedAccount api rest
    if !v.isValid then
      (invalidResultRow r v :: rec_.1, rec_.2.1, rec_.2.2.1 + 1, rec_.2.2.2)
    else
      match api r with
      | .ok res =>
        (successResultRow platformAccount connectedAccount r res :: rec_.1,
         rec_.2.1 + 1, rec_.2.2.1, r :: rec_.2.2.2)
      | .error e =>
        (failedResultRow platformAccount connectedAccount r e :: rec_.1,
         rec_.2.1, rec_.2.2.1 + 1, r :: rec_.2.2.2)

/-- The body of `importCards` after CSV parsing (lines 392-677), before the
surrounding `catch` re-wraps escaping errors: the platform-account
requirement, the empty-input check, the validation pass, the
no-valid-cards abort, the dry-run early return, and the import loop. -/
def importCardsRun (now : NowTime) (platformAccount connectedAccount : String)
    (rows : List CardRow) (isDryRun : Bool)
    (api : CardRow → Except JsError ApiSuccess) :
    Except JsError (ImportOutcome × List CardRow) :=
  if platformAccount = "" then
    .error ⟨.generic, "Platform account ID is required. Use --account option or set account in profile."⟩
  else if rows.length = 0 then
    .error ⟨.generic, "No data found in CSV file"⟩
  else
    let validCards := countValid now rows
    let errs := validationErrors now rows 0
    if validCards = 0 then
      .error ⟨.generic, "No valid cards found to import"⟩
    else if isDryRun then
      .ok (.dryRunSummary validCards errs.length, [])
    else
      let loop := importLoop now platformAccount connectedAccount api rows
      .ok (.completed loop.1 loop.2.1 loop.2.2.1, loop.2.2.2)

/-- The `catch` block of `importCards` (lines 679-689): Stripe
authentication, permission and API errors are re-raised with
category-specific messages; every other error is re-raised as
`Import failed: <original message>`. -/
def wrapImportError (e : JsError) : JsError :=
  match e.type with
  | .stripeAuth => ⟨.generic, "Invalid Stripe API key. Please check your API key."⟩
  | .stripePermission => ⟨.generic, "Insufficient permissions. Make sure your API key has the required permissions."⟩
  | .stripeAPI => ⟨.generic, "Stripe API error: " ++ e.message⟩
  | .generic => ⟨.generic, "Import failed: " ++ e.message⟩

/-- Embedding of `importCards` with its surrounding `try`/`catch`. -/
def importCards (now : NowTime) (platformAccount connectedAccount : String)
    (rows : List CardRow) (isDryRun : Bool)
    (api : CardRow → Except JsError ApiSuccess) :
    Except JsError (ImportOutcome × List CardRow) :=
  match importCardsRun now platformAccount connectedAccount rows isDryRun api with
  | .ok r => .ok r
  | .error e => .error (wrapImportError e)

/-- A command action handler (src/unnamed/part_002 lines 70-77): on
success nothing is printed and the exit code is 0; on error the error's
message is printed and the process exits with code 1. -/
def runAction (result : Except JsError Unit) : Option String × Nat :=
  match result with
  | .ok _ => (none, 0)
  | .error e => (some e.message, 1)

/-! ## Configuration state

`ProfileManager` (src/lib/profile-manager.js) reads `.secrets`;
`config-loader.js` reads `config.yml`.  Their post-load state is embedded
as `ConfigState`:

* `profiles` — the parsed `.secrets` sections (absent field: `none`);
* `defaultProfile` — the default profile name (from `config.yml`'s
  `global.default_platform`, falling back to the `.secrets` `[global]`
  `profile` line);
* `loadOk` — whether `loadProfiles()` succeeds (secrets file present and
  valid); when it fails the thrown message is represented by
  `loadFailErr` below (the actual message interpolates the file path);
* `envKey` — `process.env.STRIPE_SECRET_KEY` (`none` when unset);
* `commandKeyTypes` — the `commands` section of `config.yml`
  (`<commandPath>.key`, whose documented values are `secret` and
  `restricted`);
* `platformModeTest` — whether `getPlatformConfig(name)` yields a config
  with `mode: "test"` (false also when lookup fails, matching the
  swallowed `try`/`catch`). -/

inductive KeyType where
  | secret
  | restricted
deriving DecidableEq

structure Profile where
  key : Option String := none
  restricted_key : Option String := none
  secret_key : Option String := none
  public_key : Option String := none
  test_restricted_key : Option String := none
  test_secret_key : Option String := none
  test_public_key : Option String := none

structure ConfigState where
  profiles : String → Option Profile
  defaultProfile : Option String := none
  loadOk : Bool := true
  envKey : Option String := none
  commandKeyTypes : String → Option KeyType := fun _ => none
  platformModeTest : String → Bool := fun _ => false

/-- The error thrown when `loadProfiles()` fails (e.g. `Secrets file not
found: <path>`; the path interpolation is immaterial to every use). -/
def loadFailErr : JsError :=
  ⟨.generic, "Secrets file not found: .secrets"⟩

/-- Embedding of `getRequiredKeyType(commandPath)` (src/lib/config-loader.js lines
44-54): the explicitly configured key type, defaulting to `restricted`. -/
def getRequiredKeyType (st : ConfigState) (commandPath : String) : KeyType :=
  match st.commandKeyTypes commandPath with
  | some t => t
  | none => .restricted

def keyTypeStr : KeyType → String
  | .secret => "secret"
  | .restricted => "restricted"

/-- Embedding of `validateKeyForCommand(key, commandPath)` (src/lib/config-loader.js
lines 79-100). -/
def validateKeyForCommand (st : ConfigState) (key : String) (commandPath : String) : Except JsError String :=
  let requiredKeyType := getRequiredKeyType st commandPath
  let isSecretKey := jsStartsWith key "sk_"
  let isRestrictedKey := jsStartsWith key "rk_"
  if requiredKeyType = .secret && !isSecretKey then
    .error ⟨.generic, "Command \x27" ++ commandPath ++ "\x27 requires a secret key (sk_*), but a restricted key (rk_*) was provided. Please use a secret key for this command."⟩
  else if requiredKeyType = .restricted && !isRestrictedKey then
    .error ⟨.generic, "Command \x27" ++ commandPath ++ "\x27 requires a restricted key (rk_*), but a secret key (sk_*) was provided. Please use a restricted key for this command."⟩
  else
    .ok key

/-- Specification-side prefix discipline: `sk_` keys match requirement
`secret`, `rk_` keys match requirement `restricted`. -/
def keyMatchesType (t : KeyType) (key : String) : Bool :=
  match t with
  | .secret => jsStartsWith key "sk_"
  | .restricted => jsStartsWith key "rk_"

/-- Embedding of `getProfile(profileName)` (src/lib/profile-manager.js lines 204-218):
a falsy name falls back to the default profile; missing name or missing
profile throw. -/
def getProfile (st : ConfigState) (profileName : Option String) : Except JsError Profile :=
  let name := if jsTruthy profileName then profileName else st.defaultProfile
  if !jsTruthy name then
    .error ⟨.generic, "No profile specified and no default profile configured"⟩
  else
    match st.profiles (name.getD "") with
    | none => .error ⟨.generic, "Profile \x27" ++ name.getD "" ++ "\x27 not found"⟩
    | some p => .ok p

/-- Embedding of `getProfileKey(profileName)` (src/lib/profile-manager.js lines
160-164): `restricted_key || key || null`. -/
def getProfileKey (st : ConfigState) (profileName : Option String) : Except JsError (Option String) :=
  match getProfile st profileName with
  | .error e => .error e
  | .ok profile => .ok (jsOr profile.restricted_key (jsOr profile.key none))

/-- The case-insensitive regex matching names that end in `-uat` or
`-test`, applied to a profile / platform name. -/
def endsWithUatOrTest (s : String) : Bool :=
  jsEndsWith (jsToLower s) "-uat" || jsEndsWith (jsToLower s) "-test"

/-- Embedding of `platform.replace(..., "")` removing a trailing `-uat` or `-test`
(case-insensitively). -/
def stripUatTest (p : String) : String :=
  if jsEndsWith (jsToLower p) "-uat" then jsDropRight p 4
  else if jsEndsWith (jsToLower p) "-test" then jsDropRight p 5
  else p

/-- Embedding of `getProfileKeyByType(profileName, keyType, environment)`
(src/lib/profile-manager.js lines 173-197).  The `-uat`/`-test` test is on
the *argument* (before default-profile fallback); `RegExp.test(null)`
stringifies `null`, which does not match, embedded as `false` for `none`.
The `Invalid key type` throw is unreachable with `KeyType` an
enumeration. -/
def getProfileKeyByType (st : ConfigState) (profileName : Option String)
    (keyType : KeyType) (environment : String) : Except JsError (Option String) :=
  match getProfile st profileName with
  | .error e => .error e
  | .ok profile =>
    let isUatOrTestProfile :=
      match profileName with
      | none => false
      | some n => endsWithUatOrTest n
    if isUatOrTestProfile then
      match keyType with
      | .secret => .ok (jsOr profile.secret_key none)
      | .restricted => .ok (jsOr profile.restricted_key (jsOr profile.key none))
    else
      match keyType with
      | .secret =>
        if environment = "test" then .ok (jsOr profile.test_secret_key (jsOr profile.secret_key none))
        else .ok (jsOr profile.secret_key none)
      | .restricted =>
        if environment = "test" then .ok (jsOr profile.test_restricted_key (jsOr profile.restricted_key (jsOr profile.key none)))
        else .ok (jsOr profile.restricted_key (jsOr profile.key none))

/-- Embedding of `detectEnvironment(options)` (src/lib/stripe-client.js lines 29-58). -/
structure Options where
  key : Option String := none
  platform : Option String := none
  environment : Option String := none
  test : Bool := false
  connectedAccount : Option String := none
  account : Option String := none

def detectEnvironment (st : ConfigState) (opts : Options) : String :=
  if jsTruthy opts.environment then opts.environment.getD ""
  else if opts.test then "test"
  else
    let platform := jsToLower (opts.platform.getD "")
    if platform != "" && (jsEndsWith platform "-test" || jsEndsWith platform "-uat") then "test"
    else if jsTruthy opts.platform && st.platformModeTest (opts.platform.getD "") then "test"
    else "prod"

/-- Embedding of `getStripeKey(options, commandPath)` (src/lib/stripe-client.js lines
66-158).  The profile branch wraps every escaping error as
`Profile error: <message>`; the default branch falls back to the
environment variable when profile loading fails, or (with a command path)
when the default profile yields no truthy key. -/
def getStripeKey (st : ConfigState) (opts : Options) (commandPath : Option String) :
    Except JsError (Option String) :=
  if jsTruthy opts.key then
    let key := opts.key.getD ""
    match commandPath with
    | some cp =>
      match validateKeyForCommand st key cp with
      | .ok k => .ok (some k)
      | .error e => .error e
    | none => .ok (some key)
  else if jsTruthy opts.platform then
    let platform := opts.platform.getD ""
    let inner : Except JsError (Option String) :=
      if !st.loadOk then .error loadFailErr
      else
        let environment := detectEnvironment st opts
        let tryBaseProfile := endsWithUatOrTest platform
        match commandPath with
        | some cp =>
          let requiredKeyType := getRequiredKeyType st cp
          let keyRes : Except JsError (Option String) :=
            match getProfileKeyByType st (some platform) requiredKeyType environment with
            | .ok k => .ok k
            | .error profileErr =>
              if tryBaseProfile && includesSub profileErr.message "not found" then
                getProfileKeyByType st (some (stripUatTest platform)) requiredKeyType "test"
              else .error profileErr
          match keyRes with
          | .error e => .error e
          | .ok key =>
            if !jsTruthy key then
              .error ⟨.generic,
                "Profile \x27" ++ platform ++ "\x27 has no " ++ keyTypeStr requiredKeyType
                ++ " key configured for " ++ environment ++ " environment. Command \x27"
                ++ cp ++ "\x27 requires a " ++ keyTypeStr requiredKeyType ++ " key. Add "
                ++ (if environment = "test" then "test_" else "") ++ keyTypeStr requiredKeyType
                ++ "_key to the [" ++ platform ++ "] section in .secrets, or use --key."⟩
            else .ok key
        | none =>
          let keyRes : Except JsError (Option String) :=
            match getProfileKey st (some platform) with
            | .ok k => .ok k
            | .error profileErr =>
              if tryBaseProfile && includesSub profileErr.message "not found" then
                let base := stripUatTest platform
                match getProfileKeyByType st (some base) .restricted "test" with
                | .error e => .error e
                | .ok a =>
                  if jsTruthy a then .ok a
                  else getProfileKey st (some base)
              else .error profileErr
          match keyRes with
          | .error e => .error e
          | .ok key =>
            if !jsTruthy key then
              .error ⟨.generic,
                "Profile \x27" ++ platform ++ "\x27 has no API key in .secrets. Add restricted_key or secret_key to the [" ++ platform ++ "] section, or use --key."⟩
            else .ok key
    match inner with
    | .ok k => .ok k
    | .error e => .error ⟨.generic, "Profile error: " ++ e.message⟩
  else
    let inner : Except JsError (Option String) :=
      if !st.loadOk then .error loadFailErr
      else
        let environment := detectEnvironment st opts
        match commandPath with
        | some cp =>
          match getProfileKeyByType st none (getRequiredKeyType st cp) environment with
          | .error e => .error e
          | .ok k => .ok (if !jsTruthy k then st.envKey else k)
        | none => getProfileKey st none
    match inner with
    | .ok k => .ok k
    | .error _ => .ok st.envKey

/-! ## `customer.js` (src/lib/commands/customer.js) -/

/-- Embedding of `isTestKey(secretKey)` (lines 257-259); the argument is the
possibly-absent resolved key. -/
def isTestKey (secretKey : Option String) : Bool :=
  match secretKey with
  | none => false
  | some s => s != "" && (jsStartsWith s "sk_test_" || jsStartsWith s "rk_test_")

/-- Embedding of `createStripeClient(secretKey)` (src/lib/stripe-client.js lines
10-22), as its guard behaviour: missing key and bad prefix throw. -/
def createStripeClient (secretKey : Option String) : Except JsError Unit :=
  if !jsTruthy secretKey then
    .error ⟨.generic, "Stripe secret key is required. Provide it via --key option, --platform option, or STRIPE_SECRET_KEY environment variable."⟩
  else if !(jsStartsWith (secretKey.getD "") "sk_" || jsStartsWith (secretKey.getD "") "rk_") then
    .error ⟨.generic, "Invalid Stripe API key format. Keys should start with \x22sk_\x22 (secret key) or \x22rk_\x22 (restricted key)."⟩
  else .ok ()

inductive PromptAnswer where
  | yes
  | no
  | all

/-- Observable side effects of `deleteAllCustomers`. -/
inductive DeleteAction where
  | clientCreated (key : Option String)
  | deleted (customerId : String)
deriving DecidableEq

structure DeleteRun where
  outcome : Except JsError Unit
  actions : List DeleteAction

/-- The deletion loop of `deleteAllCustomers` (lines 327-360): each
customer is prompted for unless a previous answer was `ALL`; per-customer
deletion failures are caught and counted without stopping the loop, so
every confirmed customer produces a deletion attempt. -/
def deleteLoop (answers : Nat → PromptAnswer) :
    List String → Nat → Bool → List DeleteAction
  | [], _, _ => []
  | c :: rest, i, deleteAllRemaining =>
    let decision : Bool × Bool :=
      if deleteAllRemaining then (true, true)
      else
        match answers i with
        | .all => (true, true)
        | .yes => (true, false)
        | .no => (false, false)
    if decision.1 then
      .deleted c :: deleteLoop answers rest (i + 1) decision.2
    else
      deleteLoop answers rest (i + 1) decision.2

/-- Embedding of `deleteAllCustomers(options)` (src/lib/commands/customer.js lines
265-375): the key is resolved for command path `account.customer.delete`;
a non-test key aborts before the Stripe client is created and before any
listing or deletion; otherwise the client is created and every listed
customer the user confirms is deleted.  The connected-account resolution
(lines 273-294) only selects the `stripeAccount` request header and cannot
throw (its `try`/`catch` swallows profile errors), so it is not modelled;
`customers` is the concatenated result of the paginated `list` calls and
`answers` the user's prompt replies. -/
def deleteAllCustomers (st : ConfigState) (opts : Options)
    (customers : List String) (answers : Nat → PromptAnswer) : DeleteRun :=
  match getStripeKey st opts (some "account.customer.delete") with
  | .error e => ⟨.error e, []⟩
  | .ok secretKey =>
    if !isTestKey secretKey then
      ⟨.error ⟨.generic, "account.customer.delete --all is only allowed with Stripe test keys (sk_test_* or rk_test_*). Use a test key to delete all customers."⟩, []⟩
    else
      match createStripeClient secretKey with
      | .error e => ⟨.error e, []⟩
      | .ok _ =>
        ⟨.ok (), .clientCreated secretKey :: deleteLoop answers customers 0 false⟩

/-! ## Theorems -/

lemma luhnChecksumFrom_eq_luhnLoop (l : List Char) :
    ∀ i, luhnChecksumFrom l i = luhnLoop l (i % 2 == 1) := by
  induction l with
  | nil => intro i; rfl
  | cons c rest ih =>
    intro i
    have h2 : (((i + 1) % 2 == 1) : Bool) = !(i % 2 == 1) := by
      rcases Nat.mod_two_eq_zero_or_one i with h | h
      · have h1 : (i + 1) % 2 = 1 := by omega
        simp [h, h1]
      · have h1 : (i + 1) % 2 = 0 := by omega
        simp [h, h1]
    simp only [luhnChecksumFrom, luhnLoop, ih, h2]
    by_cases hpar : i % 2 = 1 <;> simp [hpar]

/-- Claim C1: for every string, `validateCardNumber` accepts exactly the
13-to-19-digit strings whose Luhn checksum (doubling every second digit
from the right, subtracting 9 from doubled digits above 9, summing) is
divisible by 10; every other string is rejected. -/
theorem validateCardNumber_luhn_iff (l : List Char) :
    validateCardNumber l = true ↔
      (13 ≤ l.length ∧ l.length ≤ 19 ∧ (∀ c ∈ l, isDigitChar c = true) ∧
        luhnChecksum l % 10 = 0) := by
  have hrw : luhnChecksum l = luhnLoop l.reverse false := by
    rw [luhnChecksum, luhnChecksumFrom_eq_luhnLoop]
    rfl
  unfold validateCardNumber
  by_cases hc : (13 ≤ l.length && l.length ≤ 19 && l.all isDigitChar) = true
  · have hc2 : 13 ≤ l.length ∧ l.length ≤ 19 ∧ ∀ c ∈ l, isDigitChar c = true := by
      simp only [Bool.and_eq_true, decide_eq_true_eq, List.all_eq_true] at hc
      exact ⟨hc.1.1, hc.1.2, hc.2⟩
    rw [if_neg (by simp [hc])]
    rw [hrw]
    simp only [beq_iff_eq]
    constructor
    · intro hL
      exact ⟨hc2.1, hc2.2.1, hc2.2.2, hL⟩
    · intro hfull
      exact hfull.2.2.2
  · have hcf : (13 ≤ l.length && l.length ≤ 19 && l.all isDigitChar) = false := by
      revert hc
      cases 13 ≤ l.length && l.length ≤ 19 && l.all isDigitChar <;> simp
    rw [if_pos (by rw [hcf]; rfl)]
    constructor
    · intro hf
      exact absurd hf (by simp)
    · intro hfull
      have htrue : (13 ≤ l.length && l.length ≤ 19 && l.all isDigitChar) = true := by
        simp only [Bool.and_eq_true, decide_eq_true_eq, List.all_eq_true]
        exact ⟨⟨hfull.1, hfull.2.1⟩, hfull.2.2.1⟩
      rw [hcf] at htrue
      cases htrue

lemma isDigitChar_ne_slash {ch : Char} (h : isDigitChar ch = true) : ch ≠ '/' := by
  intro heq
  subst heq
  exact absurd h (by decide)

lemma splitOnChar_five (a b c d : Char) (ha : a ≠ '/') (hb : b ≠ '/')
    (hc : c ≠ '/') (hd : d ≠ '/') :
    splitOnChar '/' [a, b, '/', c, d] = [[a, b], [c, d]] := by
  simp [splitOnChar, ha, hb, hc, hd]

lemma validateExpirationDate_mmSlashYY (now : NowTime) (a b c d : Char)
    (hda : isDigitChar a = true) (hdb : isDigitChar b = true)
    (hdc : isDigitChar c = true) (hdd : isDigitChar d = true) :
    validateExpirationDate now [a, b, '/', c, d] =
      (if 10 * digitVal a + digitVal b < 1 || 10 * digitVal a + digitVal b > 12 then false
       else decide (now.year < now.year / 100 * 100 + (10 * digitVal c + digitVal d) ∨
         (now.year / 100 * 100 + (10 * digitVal c + digitVal d) = now.year ∧
           now.month0 < 10 * digitVal a + digitVal b - 1))) := by
  have ha := isDigitChar_ne_slash hda
  have hb := isDigitChar_ne_slash hdb
  have hc := isDigitChar_ne_slash hdc
  have hd := isDigitChar_ne_slash hdd
  unfold validateExpirationDate
  simp [splitOnChar_five a b c d ha hb hc hd, parseIntJS, List.takeWhile_cons,
    hda, hdb, hdc, hdd]

lemma validateExpirationDate_mmyy (now : NowTime) (a b c d : Char)
    (hda : isDigitChar a = true) (hdb : isDigitChar b = true)
    (hdc : isDigitChar c = true) (hdd : isDigitChar d = true) :
    validateExpirationDate now [a, b, c, d] =
      (if 10 * digitVal a + digitVal b < 1 || 10 * digitVal a + digitVal b > 12 then false
       else decide (now.year < now.year / 100 * 100 + (10 * digitVal c + digitVal d) ∨
         (now.year / 100 * 100 + (10 * digitVal c + digitVal d) = now.year ∧
           now.month0 < 10 * digitVal a + digitVal b - 1))) := by
  have ha := isDigitChar_ne_slash hda
  have hb := isDigitChar_ne_slash hdb
  have hc := isDigitChar_ne_slash hdc
  have hd := isDigitChar_ne_slash hdd
  have has := Ne.symm ha
  have hbs := Ne.symm hb
  have hcs := Ne.symm hc
  have hds := Ne.symm hd
  unfold validateExpirationDate
  simp [ha, hb, hc, hd, has, hbs, hcs, hds, parseIntJS, List.takeWhile_cons,
    hda, hdb, hdc, hdd]

lemma expMonth_five (a b c d : Char) :
    expMonth [a, b, '/', c, d] = 10 * digitVal a + digitVal b := by
  simp [expMonth]

lemma expMonth_four (a b c d : Char) :
    expMonth [a, b, c, d] = 10 * digitVal a + digitVal b := by
  simp [expMonth]

lemma expYear2_five (a b c d : Char) :
    expYear2 [a, b, '/', c, d] = 10 * digitVal c + digitVal d := by
  simp [expYear2]

lemma expYear2_four (a b c d : Char) (hda : isDigitChar a = true) (hdb : isDigitChar b = true)
    (hdc : isDigitChar c = true) (hdd : isDigitChar d = true) :
    expYear2 [a, b, c, d] = 10 * digitVal c + digitVal d := by
  have ha := Ne.symm (isDigitChar_ne_slash hda)
  have hb := Ne.symm (isDigitChar_ne_slash hdb)
  have hc := Ne.symm (isDigitChar_ne_slash hdc)
  have hd := Ne.symm (isDigitChar_ne_slash hdd)
  simp [expYear2, isDigitChar_ne_slash hda, isDigitChar_ne_slash hdb,
    isDigitChar_ne_slash hdc, isDigitChar_ne_slash hdd, ha, hb, hc, hd]

/-- Claim C4: for every expiration string in `MM/YY` or `MMYY` form,
`validateExpirationDate` returns `false` whenever the month is outside
1..12 or the expiration month (in the century of the validation time) is
strictly before the current month, and returns `true` for every in-range
month strictly after the current month. -/
theorem validateExpirationDate_spec (now : NowTime) (l : List Char)
    (h : isMMYYForm l = true) :
    ((expMonth l < 1 ∨ 12 < expMonth l) → validateExpirationDate now l = false) ∧
    ((now.year / 100 * 100 + expYear2 l < now.year ∨
        (now.year / 100 * 100 + expYear2 l = now.year ∧ expMonth l - 1 < now.month0)) →
      validateExpirationDate now l = false) ∧
    (1 ≤ expMonth l → expMonth l ≤ 12 →
      (now.year < now.year / 100 * 100 + expYear2 l ∨
        (now.year / 100 * 100 + expYear2 l = now.year ∧ now.month0 < expMonth l - 1)) →
      validateExpirationDate now l = true) := by
  match l, h with
  | [a, b, sl, c, d], h =>
    simp only [isMMYYForm, Bool.and_eq_true, beq_iff_eq] at h
    obtain ⟨⟨⟨⟨hsl, hda⟩, hdb⟩, hdc⟩, hdd⟩ := h
    subst hsl
    rw [validateExpirationDate_mmSlashYY now a b c d hda hdb hdc hdd,
      expMonth_five, expYear2_five]
    refine ⟨?_, ?_, ?_⟩
    · intro hm
      rw [if_pos (show _ = true by simp only [Bool.or_eq_true, decide_eq_true_eq]; omega)]
    · intro hpast
      split
      · rfl
      · simp only [decide_eq_false_iff_not]
        omega
    · intro hm1 hm2 hfut
      rw [if_neg (show ¬(_ = true) by simp only [Bool.or_eq_true, decide_eq_true_eq]; omega)]
      simpa using hfut
  | [a, b, c, d], h =>
    simp only [isMMYYForm, Bool.and_eq_true] at h
    obtain ⟨⟨⟨hda, hdb⟩, hdc⟩, hdd⟩ := h
    rw [validateExpirationDate_mmyy now a b c d hda hdb hdc hdd,
      expMonth_four, expYear2_four a b c d hda hdb hdc hdd]
    refine ⟨?_, ?_, ?_⟩
    · intro hm
      rw [if_pos (show _ = true by simp only [Bool.or_eq_true, decide_eq_true_eq]; omega)]
    · intro hpast
      split
      · rfl
      · simp only [decide_eq_false_iff_not]
        omega
    · intro hm1 hm2 hfut
      rw [if_neg (show ¬(_ = true) by simp only [Bool.or_eq_true, decide_eq_true_eq]; omega)]
      simpa using hfut

/-- Concrete instance of the C4 theorem: at October 2026, `12/99` is a
future in-range date and is accepted. -/
theorem validateExpirationDate_spec_witness :
    validateExpirationDate ⟨2026, 9⟩ "12/99".data = true :=
  (validateExpirationDate_spec ⟨2026, 9⟩ "12/99".data (by decide)).2.2
    (by decide) (by decide) (by decide)

/-- Claim C5: for every card-number string of length 13..19,
`maskCardNumber` keeps the length, preserves exactly the last 4
characters, stars out all the rest; hence any two same-length inputs that
agree on their last 4 characters mask to the identical output. -/
theorem maskCardNumber_last4_only (l : List Char)
    (h13 : 13 ≤ l.length) (h19 : l.length ≤ 19) :
    (maskCardNumber l).length = l.length ∧
    (maskCardNumber l).drop (l.length - 4) = l.drop (l.length - 4) ∧
    (∀ c ∈ (maskCardNumber l).take (l.length - 4), c = '*') ∧
    (∀ l2 : List Char, 13 ≤ l2.length → l2.length = l.length →
      l2.drop (l2.length - 4) = l.drop (l.length - 4) →
      maskCardNumber l2 = maskCardNumber l) := by
  have h4 : ¬l.length < 4 := by omega
  have hmask : maskCardNumber l = List.replicate (l.length - 4) '*' ++ l.drop (l.length - 4) := by
    rw [maskCardNumber, if_neg h4]
  refine ⟨?_, ?_, ?_, ?_⟩
  · rw [hmask]
    simp
  · rw [hmask]
    have := List.drop_left (List.replicate (l.length - 4) '*') (l.drop (l.length - 4))
    simp only [List.length_replicate] at this
    exact this
  · intro c hc
    rw [hmask] at hc
    have := List.take_left (List.replicate (l.length - 4) '*') (l.drop (l.length - 4))
    rw [List.length_replicate] at this
    rw [this] at hc
    exact List.eq_of_mem_replicate hc
  · intro l2 h2a h2len h2drop
    have h24 : ¬l2.length < 4 := by omega
    rw [maskCardNumber, if_neg h24, h2drop, h2len, hmask]

/-- Concrete instance of the C5 theorem: a 16-digit number masks to the
same length. -/
theorem maskCardNumber_last4_only_witness :
    (maskCardNumber "4242424242424242".data).length = "4242424242424242".data.length :=
  (maskCardNumber_last4_only "4242424242424242".data (by decide) (by decide)).1

lemma validateCardRow_isValid_rowNumber (now : NowTime) (r : CardRow) (n : Nat) :
    (validateCardRow now r n).isValid = rowValid now r := rfl

lemma validateCardRow_errors_rowNumber (now : NowTime) (r : CardRow) (n m : Nat) :
    (validateCardRow now r n).errors = (validateCardRow now r m).errors := rfl

lemma countP_bool_not (p : CardRow → Bool) (l : List CardRow) :
    l.countP (fun r => !(p r)) = l.length - l.countP p := by
  induction l with
  | nil => simp
  | cons a l ih =>
    have hle := List.countP_le_length (p := p) (l := l)
    by_cases h : p a <;> simp [List.countP_cons, h, ih] <;> omega

lemma importLoop_spec (now : NowTime) (pa ca : String)
    (api : CardRow → Except JsError ApiSuccess)
    (hapi : ∀ r, ∃ res, api r = .ok res) :
    ∀ rows : List CardRow,
      (importLoop now pa ca api rows).1.length = rows.length ∧
      (importLoop now pa ca api rows).1.map (fun r => r.original) = rows ∧
      (importLoop now pa ca api rows).2.1 = rows.countP (rowValid now) ∧
      (importLoop now pa ca api rows).2.2.1 = rows.countP (fun r => !(rowValid now r)) ∧
      ((importLoop now pa ca api rows).1.filter
          (fun r => r.stripe_status == "invalid")).length
        = rows.countP (fun r => !(rowValid now r)) := by
  intro rows
  induction rows with
  | nil => simp [importLoop]
  | cons r rest ih =>
    by_cases hv : (validateCardRow now r 0).isValid
    · obtain ⟨res, hres⟩ := hapi r
      have hvr : rowValid now r = true := hv
      simp [importLoop, hv, hres, List.countP_cons, hvr, ih.1, ih.2.1, ih.2.2.1,
        ih.2.2.2.1, ih.2.2.2.2, successResultRow]
    · have hvr : rowValid now r = false := by
        rw [← validateCardRow_isValid_rowNumber now r 0]
        exact Bool.eq_false_iff.mpr hv
      simp [importLoop, hv, List.countP_cons, hvr, ih.1, ih.2.1, ih.2.2.1,
        ih.2.2.2.1, ih.2.2.2.2, invalidResultRow]

/-- Claim C3: for a parsed CSV with at least one valid row, a
non-dry-run import in which every payment-API call succeeds yields one output row per
input row in input order, reports `successCount` equal to the number of
valid rows, and marks exactly the remaining rows with the
validation-failure status `invalid`. -/
theorem importCards_counts (now : NowTime) (pa ca : String) (rows : List CardRow)
    (api : CardRow → Except JsError ApiSuccess)
    (hpa : pa ≠ "") (hvalid : 1 ≤ countValid now rows)
    (hapi : ∀ r, ∃ res, api r = .ok res) :
    ∃ results calls,
      importCards now pa ca rows false api =
        .ok (.completed results (countValid now rows)
          (rows.length - countValid now rows), calls) ∧
      results.length = rows.length ∧
      results.map (fun r => r.original) = rows ∧
      (results.filter (fun r => r.stripe_status == "invalid")).length
        = rows.length - countValid now rows := by
  have hloop := importLoop_spec now pa ca api hapi rows
  have hlen : rows.length ≠ 0 := by
    have := List.countP_le_length (p := rowValid now) (l := rows)
    unfold countValid at hvalid
    omega
  have hnz : countValid now rows ≠ 0 := by omega
  refine ⟨(importLoop now pa ca api rows).1, (importLoop now pa ca api rows).2.2.2, ?_, ?_, ?_, ?_⟩
  · unfold importCards importCardsRun
    rw [if_neg hpa, if_neg hlen, if_neg hnz]
    simp only [Bool.false_eq_true, if_false]
    rw [hloop.2.2.1, hloop.2.2.2.1, countP_bool_not]
    rfl
  · exact hloop.1
  · exact hloop.2.1
  · rw [hloop.2.2.2.2, countP_bool_not]
    rfl

/-- Concrete instance of the C3 theorem: one valid and one invalid row,
with an always-succeeding API. -/
theorem importCards_counts_witness :
    ∃ results calls,
      importCards ⟨2026, 9⟩ "acct_1" ""
          [{ card := "4242424242424242".data, exp := "12/99".data },
           { card := "1234".data, exp := "13/99".data }] false (fun _ => .ok {}) =
        .ok (.completed results
          (countValid ⟨2026, 9⟩
            [{ card := "4242424242424242".data, exp := "12/99".data },
             { card := "1234".data, exp := "13/99".data }])
          ([({ card := "4242424242424242".data, exp := "12/99".data } : CardRow),
            { card := "1234".data, exp := "13/99".data }].length -
            countValid ⟨2026, 9⟩
              [{ card := "4242424242424242".data, exp := "12/99".data },
               { card := "1234".data, exp := "13/99".data }]), calls) ∧
      results.length =
        [({ card := "4242424242424242".data, exp := "12/99".data } : CardRow),
         { card := "1234".data, exp := "13/99".data }].length ∧
      results.map (fun r => r.original) =
        [{ card := "4242424242424242".data, exp := "12/99".data },
         { card := "1234".data, exp := "13/99".data }] ∧
      (results.filter (fun r => r.stripe_status == "invalid")).length =
        [({ card := "4242424242424242".data, exp := "12/99".data } : CardRow),
         { card := "1234".data, exp := "13/99".data }].length -
          countValid ⟨2026, 9⟩
            [{ card := "4242424242424242".data, exp := "12/99".data },
             { card := "1234".data, exp := "13/99".data }] :=
  importCards_counts ⟨2026, 9⟩ "acct_1" "" _ _ (by decide) (by decide)
    (fun r => ⟨{}, rfl⟩)

lemma validationErrors_length (now : NowTime) :
    ∀ (rows : List CardRow) (k : Nat),
      (validationErrors now rows k).length = rows.countP (fun r => !(rowValid now r)) := by
  intro rows
  induction rows with
  | nil => intro k; simp [validationErrors]
  | cons r rest ih =>
    intro k
    by_cases hv : (validateCardRow now r (k + 2)).isValid
    · have hvr : rowValid now r = true := hv
      simp [validationErrors, hv, List.countP_cons, hvr, ih]
    · have hvr : rowValid now r = false := by
        rw [← validateCardRow_isValid_rowNumber now r (k + 2)]
        exact Bool.eq_false_iff.mpr hv
      simp [validationErrors, hv, List.countP_cons, hvr, ih]

lemma validationErrors_mem (now : NowTime) :
    ∀ (rows : List CardRow) (k : Nat),
      ∀ e ∈ validationErrors now rows k, ∃ i, ∃ hi : i < rows.length,
        e.row = k + i + 2 ∧ rowValid now (rows.get ⟨i, hi⟩) = false ∧
        e.errors = (validateCardRow now (rows.get ⟨i, hi⟩) 0).errors ∧
        e.card = maskOrNA (rows.get ⟨i, hi⟩).card := by
  intro rows
  induction rows with
  | nil => intro k e he; simp [validationErrors] at he
  | cons r rest ih =>
    intro k e he
    by_cases hv : (validateCardRow now r (k + 2)).isValid
    · rw [validationErrors, if_pos hv] at he
      obtain ⟨i, hi, hrow, hval, herr, hcard⟩ := ih (k + 1) e he
      exact ⟨i + 1, by simpa using Nat.succ_lt_succ hi,
        by omega, by simpa using hval, by simpa using herr, by simpa using hcard⟩
    · rw [validationErrors, if_neg hv] at he
      rcases List.mem_cons.mp he with heq | htail
      · subst heq
        refine ⟨0, Nat.succ_pos _, rfl, ?_, rfl, rfl⟩
        show rowValid now r = false
        rw [← validateCardRow_isValid_rowNumber now r (k + 2)]
        exact Bool.eq_false_iff.mpr hv
      · obtain ⟨i, hi, hrow, hval, herr, hcard⟩ := ih (k + 1) e htail
        exact ⟨i + 1, by simpa using Nat.succ_lt_succ hi,
          by omega, by simpa using hval, by simpa using herr, by simpa using hcard⟩

/-- Claim C6: rows failing validation are collected as per-row error
entries (one entry per invalid row, carrying that row's 1-indexed CSV
position and its error messages) without stopping the batch, and
the import aborts with `No valid cards found to import` exactly when no row
validates. -/
theorem importCards_per_row_errors (now : NowTime) (pa ca : String)
    (rows : List CardRow) (isDryRun : Bool)
    (api : CardRow → Except JsError ApiSuccess)
    (hpa : pa ≠ "") (hrows : rows ≠ []) :
    (importCardsRun now pa ca rows isDryRun api =
        .error ⟨.generic, "No valid cards found to import"⟩ ↔
      countValid now rows = 0) ∧
    (validationErrors now rows 0).length = rows.length - countValid now rows ∧
    (∀ e ∈ validationErrors now rows 0, ∃ i, ∃ hi : i < rows.length,
      e.row = i + 2 ∧ rowValid now (rows.get ⟨i, hi⟩) = false ∧
      e.errors = (validateCardRow now (rows.get ⟨i, hi⟩) (i + 2)).errors ∧
      e.card = maskOrNA (rows.get ⟨i, hi⟩).card) := by
  have hlen : rows.length ≠ 0 := by
    intro h
    exact hrows (List.eq_nil_of_length_eq_zero h)
  refine ⟨?_, ?_, ?_⟩
  · constructor
    · intro hres
      by_contra hnz
      rw [importCardsRun, if_neg hpa, if_neg hlen, if_neg hnz] at hres
      by_cases hdry : isDryRun = true
      · rw [if_pos hdry] at hres
        cases hres
      · rw [if_neg hdry] at hres
        cases hres
    · intro hz
      rw [importCardsRun, if_neg hpa, if_neg hlen, if_pos hz]
  · rw [validationErrors_length, countP_bool_not]
    rfl
  · intro e he
    obtain ⟨i, hi, hrow, hval, herr, hcard⟩ := validationErrors_mem now rows 0 e he
    refine ⟨i, hi, by omega, hval, ?_, hcard⟩
    rw [herr]
    exact validateCardRow_errors_rowNumber now _ 0 (i + 2)

/-- Concrete instance of the C6 theorem: with a single invalid row
the import aborts with the no-valid-cards error. -/
theorem importCards_per_row_errors_witness :
    importCardsRun ⟨2026, 9⟩ "acct_1" ""
        [{ card := "1234".data, exp := "13/99".data }] false (fun _ => .ok {}) =
      .error ⟨.generic, "No valid cards found to import"⟩ :=
  (importCards_per_row_errors ⟨2026, 9⟩ "acct_1" ""
      [{ card := "1234".data, exp := "13/99".data }] false (fun _ => .ok {})
      (by decide) (by simp)).1.mpr (by decide)

/-- Claim C7: with the dry-run option set and at least one valid row,
`importCards` returns the dry-run summary of the validation counts: the
payment API is never invoked (the call list is empty) and no results
output is produced (the outcome is the summary, not a `completed` results
list). -/
theorem importCards_dryRun_no_api (now : NowTime) (pa ca : String)
    (rows : List CardRow) (api : CardRow → Except JsError ApiSuccess)
    (hpa : pa ≠ "") (hvalid : 1 ≤ countValid now rows) :
    importCards now pa ca rows true api =
      .ok (.dryRunSummary (countValid now rows)
        (validationErrors now rows 0).length, []) := by
  have hlen : rows.length ≠ 0 := by
    have := List.countP_le_length (p := rowValid now) (l := rows)
    unfold countValid at hvalid
    omega
  have hnz : countValid now rows ≠ 0 := by omega
  unfold importCards importCardsRun
  rw [if_neg hpa, if_neg hlen, if_neg hnz]
  rfl

/-- Concrete instance of the C7 theorem: one valid row, dry run. -/
theorem importCards_dryRun_no_api_witness :
    importCards ⟨2026, 9⟩ "acct_1" ""
        [{ card := "4242424242424242".data, exp := "12/99".data }] true (fun _ => .ok {}) =
      .ok (.dryRunSummary
        (countValid ⟨2026, 9⟩ [{ card := "4242424242424242".data, exp := "12/99".data }])
        (validationErrors ⟨2026, 9⟩
          [{ card := "4242424242424242".data, exp := "12/99".data }] 0).length, []) :=
  importCards_dryRun_no_api ⟨2026, 9⟩ "acct_1" ""
    [{ card := "4242424242424242".data, exp := "12/99".data }] (fun _ => .ok {})
    (by decide) (by decide)

/-- Claim C8: every error escaping the import is re-raised by the `catch`
block — Stripe authentication, permission and API errors with their
category-specific user-facing messages, every other error as
`Import failed: <original message>` (the original message kept verbatim) —
and the command's action handler prints the resulting message and exits
with code 1, so no error is silently swallowed. -/
theorem importCards_error_taxonomy (e : JsError) :
    (e.type = .stripeAuth → wrapImportError e =
      ⟨.generic, "Invalid Stripe API key. Please check your API key."⟩) ∧
    (e.type = .stripePermission → wrapImportError e =
      ⟨.generic, "Insufficient permissions. Make sure your API key has the required permissions."⟩) ∧
    (e.type = .stripeAPI → wrapImportError e =
      ⟨.generic, "Stripe API error: " ++ e.message⟩) ∧
    (e.type = .generic → wrapImportError e =
      ⟨.generic, "Import failed: " ++ e.message⟩) ∧
    runAction (.error (wrapImportError e)) = (some (wrapImportError e).message, 1) := by
  obtain ⟨t, m⟩ := e
  cases t <;> simp [wrapImportError, runAction]

/-- Concrete instance of the C8 theorem: an authentication error is
re-wrapped with the fixed key message. -/
theorem importCards_error_taxonomy_witness :
    wrapImportError ⟨.stripeAuth, "raw"⟩ =
      ⟨.generic, "Invalid Stripe API key. Please check your API key."⟩ :=
  (importCards_error_taxonomy ⟨.stripeAuth, "raw"⟩).1 rfl

lemma validateKeyForCommand_congr (st st2 : ConfigState) (key cp : String)
    (h : st.commandKeyTypes = st2.commandKeyTypes) :
    validateKeyForCommand st key cp = validateKeyForCommand st2 key cp := by
  unfold validateKeyForCommand getRequiredKeyType
  rw [h]

lemma validateKeyForCommand_ok_eq (st : ConfigState) (key cp k2 : String)
    (h : validateKeyForCommand st key cp = .ok k2) : k2 = key := by
  unfold validateKeyForCommand at h
  simp only [] at h
  split at h
  · cases h
  · split at h
    · cases h
    · injection h with h
      exact h.symm

lemma jsTruthy_some_getD {o : Option String} (h : jsTruthy o = true) :
    some (o.getD "") = o := by
  cases o with
  | none => cases h
  | some s => rfl

/-- Claim C10: `validateKeyForCommand` returns the key unchanged exactly
when the key's prefix matches the command's required key type (`sk_` for
`secret`, `rk_` for `restricted`, with `restricted` the default for
unconfigured commands) and throws otherwise; in particular a secret key is
rejected when the command requires a restricted key. -/
theorem validateKeyForCommand_prefix_iff (st : ConfigState) (key commandPath : String) :
    (validateKeyForCommand st key commandPath = .ok key ↔
      keyMatchesType (getRequiredKeyType st commandPath) key = true) ∧
    (∀ k2, validateKeyForCommand st key commandPath = .ok k2 → k2 = key) ∧
    (keyMatchesType (getRequiredKeyType st commandPath) key = false →
      ∃ e, validateKeyForCommand st key commandPath = .error e) ∧
    (st.commandKeyTypes commandPath = none →
      getRequiredKeyType st commandPath = .restricted) ∧
    (getRequiredKeyType st commandPath = .restricted → jsStartsWith key "sk_" = true →
      jsStartsWith key "rk_" = false →
      validateKeyForCommand st key commandPath =
        .error ⟨.generic, "Command \x27" ++ commandPath ++ "\x27 requires a restricted key (rk_*), but a secret key (sk_*) was provided. Please use a restricted key for this command."⟩) := by
  refine ⟨?_, fun k2 => validateKeyForCommand_ok_eq st key commandPath k2, ?_, ?_, ?_⟩
  · cases hrt : getRequiredKeyType st commandPath with
    | secret =>
      by_cases hsk : key.startsWith "sk_" = true
      · simp [validateKeyForCommand, keyMatchesType, hrt, hsk]
      · simp [validateKeyForCommand, keyMatchesType, hrt, hsk]
    | restricted =>
      by_cases hrk : key.startsWith "rk_" = true
      · simp [validateKeyForCommand, keyMatchesType, hrt, hrk]
      · simp [validateKeyForCommand, keyMatchesType, hrt, hrk]
  · intro hmiss
    cases hrt : getRequiredKeyType st commandPath with
    | secret =>
      rw [hrt, keyMatchesType] at hmiss
      refine ⟨⟨.generic, "Command \x27" ++ commandPath ++ "\x27 requires a secret key (sk_*), but a restricted key (rk_*) was provided. Please use a secret key for this command."⟩, ?_⟩
      simp [validateKeyForCommand, hrt, hmiss]
    | restricted =>
      rw [hrt, keyMatchesType] at hmiss
      refine ⟨⟨.generic, "Command \x27" ++ commandPath ++ "\x27 requires a restricted key (rk_*), but a secret key (sk_*) was provided. Please use a restricted key for this command."⟩, ?_⟩
      simp [validateKeyForCommand, hrt, hmiss]
  · intro h
    unfold getRequiredKeyType
    rw [h]
  · intro hrt hsk hrk
    simp [validateKeyForCommand, hrt, hsk, hrk]

/-- Sample profile table used by the concrete instances below. -/
def sampleProfiles : String → Option Profile := fun n =>
  if n = "vet" then
    some { restricted_key := some "rk_live_vetkey", secret_key := some "sk_live_vetsecret",
           test_restricted_key := some "rk_test_vetkey" }
  else none

/-- Sample configuration state used by the concrete instances below. -/
def sampleState : ConfigState :=
  { profiles := sampleProfiles, defaultProfile := some "vet", loadOk := true,
    envKey := some "sk_env_key" }

/-- Concrete instance of the C10 theorem: a restricted key is returned
unchanged for a command requiring (by default) a restricted key. -/
theorem validateKeyForCommand_prefix_iff_witness :
    validateKeyForCommand sampleState "rk_test_1" "account.list" = .ok "rk_test_1" :=
  (validateKeyForCommand_prefix_iff sampleState "rk_test_1" "account.list").1.mpr (by decide)

/-- Claim C9: `deleteAllCustomers` aborts — before the Stripe client is
created and before any deletion — whenever the resolved key is not a test
key (prefix `sk_test_` or `rk_test_`), and any run that performs any
action at all resolved a test key, so deleting all customers is never
possible with a live-mode key. -/
theorem deleteAllCustomers_test_key_guard (st : ConfigState) (opts : Options)
    (customers : List String) (answers : Nat → PromptAnswer) :
    (∀ k, getStripeKey st opts (some "account.customer.delete") = .ok k →
      isTestKey k = false →
      deleteAllCustomers st opts customers answers =
        ⟨.error ⟨.generic, "account.customer.delete --all is only allowed with Stripe test keys (sk_test_* or rk_test_*). Use a test key to delete all customers."⟩, []⟩) ∧
    ((deleteAllCustomers st opts customers answers).actions ≠ [] →
      ∃ k, getStripeKey st opts (some "account.customer.delete") = .ok k ∧
        isTestKey k = true) := by
  constructor
  · intro k hk hnt
    simp [deleteAllCustomers, hk, hnt]
  · intro hne
    cases hres : getStripeKey st opts (some "account.customer.delete") with
    | error e =>
      exfalso
      apply hne
      simp [deleteAllCustomers, hres]
    | ok k =>
      by_cases ht : isTestKey k = true
      · exact ⟨k, rfl, ht⟩
      · exfalso
        apply hne
        have ht2 : isTestKey k = false := by
          revert ht
          cases isTestKey k <;> simp
        simp [deleteAllCustomers, hres, ht2]

/-- Concrete instance of the C9 theorem: an explicit live restricted key
aborts the delete-all run with no client created and no deletions. -/
theorem deleteAllCustomers_test_key_guard_witness :
    deleteAllCustomers sampleState { key := some "rk_live_x" } ["cus_1"] (fun _ => .yes) =
      ⟨.error ⟨.generic, "account.customer.delete --all is only allowed with Stripe test keys (sk_test_* or rk_test_*). Use a test key to delete all customers."⟩, []⟩ :=
  (deleteAllCustomers_test_key_guard sampleState { key := some "rk_live_x" }
      ["cus_1"] (fun _ => .yes)).1 (some "rk_live_x") rfl (by decide)

/-- The profile-branch key lookup of `getStripeKey` for a given platform:
with a command path, by required key type and detected environment;
without one, the backward-compatible profile key. -/
def profileKeyLookup (st : ConfigState) (opts : Options) (commandPath : Option String)
    (p : String) : Except JsError (Option String) :=
  match commandPath with
  | some cp => getProfileKeyByType st (some p) (getRequiredKeyType st cp) (detectEnvironment st opts)
  | none => getProfileKey st (some p)

/-- The default-profile key lookup of `getStripeKey` (no explicit key, no
platform). -/
def defaultKeyLookup (st : ConfigState) (opts : Options) (commandPath : Option String) :
    Except JsError (Option String) :=
  match commandPath with
  | some cp => getProfileKeyByType st none (getRequiredKeyType st cp) (detectEnvironment st opts)
  | none => getProfileKey st none

/-- Claim C2: key-source precedence in `getStripeKey`.  (1) With a truthy
`--key` the result depends only on the command-requirements config —
profiles, default profile, load state, platform modes and the environment
variable are never consulted — and (2) any successful result is that key.
(3) With no `--key`, a `--platform` whose profile lookup yields a truthy
key resolves to exactly that profile key, whatever the environment
variable.  (4) With neither, a truthy default-profile key resolves to
exactly that key, whatever the environment variable.  The environment
variable is used only when none of the preceding sources yields a key:
(5) when profile loading fails, (6) when (with a command path) the default
profile yields no truthy key, and (7) when the default-profile lookup
throws. -/
theorem getStripeKey_precedence (st st2 : ConfigState) (opts : Options)
    (commandPath : Option String) :
    (jsTruthy opts.key = true → st.commandKeyTypes = st2.commandKeyTypes →
      getStripeKey st opts commandPath = getStripeKey st2 opts commandPath) ∧
    (∀ k, jsTruthy opts.key = true →
      getStripeKey st opts commandPath = .ok k → k = opts.key) ∧
    (∀ p k, jsTruthy opts.key = false → opts.platform = some p → p ≠ "" →
      st.loadOk = true → profileKeyLookup st opts commandPath p = .ok (some k) →
      k ≠ "" → getStripeKey st opts commandPath = .ok (some k)) ∧
    (∀ k, jsTruthy opts.key = false → jsTruthy opts.platform = false →
      st.loadOk = true → defaultKeyLookup st opts commandPath = .ok (some k) →
      k ≠ "" → getStripeKey st opts commandPath = .ok (some k)) ∧
    (jsTruthy opts.key = false → jsTruthy opts.platform = false →
      st.loadOk = false → getStripeKey st opts commandPath = .ok st.envKey) ∧
    (∀ cp kopt, jsTruthy opts.key = false → jsTruthy opts.platform = false →
      st.loadOk = true → commandPath = some cp →
      getProfileKeyByType st none (getRequiredKeyType st cp) (detectEnvironment st opts) =
        .ok kopt →
      jsTruthy kopt = false →
      getStripeKey st opts commandPath = .ok st.envKey) ∧
    (∀ e, jsTruthy opts.key = false → jsTruthy opts.platform = false →
      st.loadOk = true → defaultKeyLookup st opts commandPath = .error e →
      getStripeKey st opts commandPath = .ok st.envKey) := by
  refine ⟨?_, ?_, ?_, ?_, ?_, ?_, ?_⟩
  · intro hk hct
    cases commandPath with
    | none => simp [getStripeKey, hk]
    | some cp =>
      simp only [getStripeKey, hk, if_true]
      rw [validateKeyForCommand_congr st st2 (opts.key.getD "") cp hct]
  · intro k hk hres
    cases commandPath with
    | none =>
      simp only [getStripeKey, hk, if_true] at hres
      injection hres with hres
      rw [← hres]
      exact jsTruthy_some_getD hk
    | some cp =>
      simp only [getStripeKey, hk, if_true] at hres
      split at hres
      case _ k2 heq =>
        injection hres with hres
        rw [← hres, validateKeyForCommand_ok_eq st (opts.key.getD "") cp k2 heq]
        exact jsTruthy_some_getD hk
      case _ e heq => cases hres
  · intro p k hk hp hpne hload hlook hkne
    have hpt : jsTruthy (some p) = true := by simp [jsTruthy, hpne]
    have hkt : jsTruthy (some k) = true := by simp [jsTruthy, hkne]
    cases commandPath with
    | some cp =>
      have hl : getProfileKeyByType st (some p) (getRequiredKeyType st cp)
          (detectEnvironment st opts) = .ok (some k) := by
        simpa [profileKeyLookup] using hlook
      simp [getStripeKey, hk, hp, hpt, hload, hl, hkt]
    | none =>
      have hl : getProfileKey st (some p) = .ok (some k) := by
        simpa [profileKeyLookup] using hlook
      simp [getStripeKey, hk, hp, hpt, hload, hl, hkt]
  · intro k hk hp hload hlook hkne
    have hkt : jsTruthy (some k) = true := by simp [jsTruthy, hkne]
    cases commandPath with
    | some cp =>
      have hl : getProfileKeyByType st none (getRequiredKeyType st cp)
          (detectEnvironment st opts) = .ok (some k) := by
        simpa [defaultKeyLookup] using hlook
      simp [getStripeKey, hk, hp, hload, hl, hkt]
    | none =>
      have hl : getProfileKey st none = .ok (some k) := by
        simpa [defaultKeyLookup] using hlook
      simp [getStripeKey, hk, hp, hload, hl]
  · intro hk hp hload
    simp [getStripeKey, hk, hp, hload]
  · intro cp kopt hk hp hload hcp hlook hkf
    subst hcp
    simp [getStripeKey, hk, hp, hload, hlook, hkf]
  · intro e hk hp hload hlook
    cases commandPath with
    | some cp =>
      have hl : getProfileKeyByType st none (getRequiredKeyType st cp)
          (detectEnvironment st opts) = .error e := by
        simpa [defaultKeyLookup] using hlook
      simp [getStripeKey, hk, hp, hload, hl]
    | none =>
      have hl : getProfileKey st none = .error e := by
        simpa [defaultKeyLookup] using hlook
      simp [getStripeKey, hk, hp, hload, hl]

/-- Concrete instances of the C2 theorem: an explicit key makes the result
independent of the environment variable, and a platform profile key wins
over the environment variable. -/
theorem getStripeKey_precedence_witness :
    (getStripeKey sampleState { key := some "rk_cli_key" } (some "account.list") =
      getStripeKey { sampleState with envKey := none } { key := some "rk_cli_key" }
        (some "account.list")) ∧
    getStripeKey sampleState { platform := some "vet" } (some "account.list") =
      .ok (some "rk_live_vetkey") :=
  ⟨(getStripeKey_precedence sampleState { sampleState with envKey := none }
      { key := some "rk_cli_key" } (some "account.list")).1 rfl rfl,
   (getStripeKey_precedence sampleState sampleState { platform := some "vet" }
      (some "account.list")).2.2.1 "vet" "rk_live_vetkey" rfl rfl (by decide) rfl rfl
      (by decide)⟩
